import Mathlib

/-!
Shallow embedding of `src/backend/src/main.rs` (the Valentine backend):
a fixed list of love quotes, a uniform-random selection over it with a
defensive fallback, two JSON handlers, and a Rocket launch sequence that
builds an allow-all CORS policy.

The random source is modelled as an injected uniform index, following the
spec's "randomness as an injectable capability" note: `choose` receives the
index the RNG would have produced.
-/

/-- Rust struct `HealthResponse { status, service }`. -/
structure HealthResponse where
  status : String
  service : String
deriving DecidableEq

/-- Rust struct `ValentineResponse { message, from }`. -/
structure ValentineResponse where
  message : String
  «from» : String
deriving DecidableEq

/-- The constant `LOVE_QUOTES: &[&str]` from the source. -/
def LOVE_QUOTES : List String :=
  [ "You are the reason I believe in love.",
    "Every love story is beautiful, but ours is my favorite.",
    "In all the world, there is no heart for me like yours.",
    "I love you more than yesterday, less than tomorrow.",
    "You had me at hello.",
    "To love and be loved is to feel the sun from both sides.",
    "My heart is, and always will be, yours.",
    "I wish I could turn back the clock. I'd find you sooner and love you longer.",
    "You are my today and all of my tomorrows.",
    "I fell in love the way you fall asleep: slowly, and then all at once." ]

/-- `rand::seq::SliceRandom::choose`: returns `None` on an empty slice and
otherwise `Some (slice[k])` for an index `k` drawn uniformly from
`[0, len)`.  The random source is the injected index `i`, reduced to the
valid range: for an empty list `i % 0 = i` and `get?` yields `none`, exactly
as `choose` does. -/
def choose (l : List String) (i : Nat) : Option String :=
  l.get? (i % l.length)

/-- `LOVE_QUOTES.choose(&mut rng).unwrap_or(&"I love you!")`, generalised
over the slice so the empty-pool policy can be stated. -/
def pickFrom (l : List String) (i : Nat) : String :=
  (choose l i).getD "I love you!"

/-- The selection the `valentine` handler performs (spec: `Selector.pick`). -/
def pick (i : Nat) : String :=
  pickFrom LOVE_QUOTES i

/-- The `health` handler: builds the constant health record. -/
def health : HealthResponse :=
  { status := "ok", service := "valentine-backend" }

/-- The `valentine` handler: picks a quote and wraps it with the fixed
sender, the RNG modelled as the injected index `i`. -/
def valentine (i : Nat) : ValentineResponse :=
  { message := pick i, «from» := "Your Valentine" }

/-- A serialized response body: one of the two record kinds. -/
inductive Body
  | healthBody (h : HealthResponse)
  | valentineBody (v : ValentineResponse)
deriving DecidableEq

/-- An HTTP response as observed by a client: status code, whether the
allow-all cross-origin headers are present, and the structured body. -/
structure HttpResponse where
  status : Nat
  corsAllowAll : Bool
  body : Option Body
deriving DecidableEq

/-- Modelled from the spec: Rocket's router and the attached `rocket_cors`
fairing are framework code not present in `src/`.  The source mounts
`routes![health, valentine]` at `/` and attaches the allow-all CORS fairing;
per the spec, `GET /health` and `GET /api/valentine` reach the handlers,
every other method/path pair yields a 404 with no structured body, and the
fairing adds the allow-all cross-origin headers to every response. -/
def respond (method path : String) (i : Nat) : HttpResponse :=
  if method = "GET" ∧ path = "/health" then
    { status := 200, corsAllowAll := true, body := some (Body.healthBody health) }
  else if method = "GET" ∧ path = "/api/valentine" then
    { status := 200, corsAllowAll := true,
      body := some (Body.valentineBody (valentine i)) }
  else
    { status := 404, corsAllowAll := true, body := none }

/-- The constructed CORS policy (`rocket_cors::Cors`), reduced to the one
option the source sets. -/
structure Cors where
  allowAllOrigins : Bool
deriving DecidableEq

/-- A launched server: holds the attached CORS fairing and the fact that the
listener is bound. -/
structure Server where
  cors : Cors
  bound : Bool
deriving DecidableEq

/-- Modelled from the spec: the `rocket()` launch sequence.  `to_cors()` is
`rocket_cors` code not in `src/`; its outcome is the `corsResult` argument.
`.expect("CORS configuration failed")` aborts the process before
`rocket::build()...mount(...)` ever binds the listener, so a failed policy
construction yields a fatal error and no server. -/
def rocket (corsResult : Option Cors) : Except String Server :=
  match corsResult with
  | none => Except.error "CORS configuration failed"
  | some c => Except.ok { cors := c, bound := true }

/-! ### Helper lemmas shared by the claim theorems -/

theorem pickFrom_eq_get (l : List String) (hl : l ≠ []) (i : Nat) :
    pickFrom l i =
      l.get ⟨i % l.length, Nat.mod_lt _ (List.length_pos.mpr hl)⟩ := by
  unfold pickFrom choose
  rw [List.get?_eq_get (Nat.mod_lt _ (List.length_pos.mpr hl))]
  rfl

theorem pickFrom_mem (l : List String) (hl : l ≠ []) (i : Nat) :
    pickFrom l i ∈ l := by
  rw [pickFrom_eq_get l hl i]
  exact List.get_mem l _ _

theorem pick_mem (i : Nat) : pick i ∈ LOVE_QUOTES :=
  pickFrom_mem LOVE_QUOTES (by decide) i

theorem love_quotes_nodup : LOVE_QUOTES.Nodup := by decide

theorem fallback_not_mem : "I love you!" ∉ LOVE_QUOTES := by decide

theorem pick_eq_get (i : Nat) :
    pick i = LOVE_QUOTES.get ⟨i % LOVE_QUOTES.length,
      Nat.mod_lt _ (List.length_pos.mpr (by decide))⟩ :=
  pickFrom_eq_get LOVE_QUOTES (by decide) i

theorem pick_mod_inj (i j : Nat) (h : pick i = pick j) :
    i % LOVE_QUOTES.length = j % LOVE_QUOTES.length := by
  rw [pick_eq_get i, pick_eq_get j] at h
  have := List.nodup_iff_injective_get.mp love_quotes_nodup h
  exact congrArg Fin.val this

/-! ### Claim theorems -/

/-- C1: every invocation of the valentine handler returns a record whose
`message` is one of the ten `LOVE_QUOTES` strings and whose `from` field is
exactly "Your Valentine". -/
theorem valentine_message_in_bank_from_fixed (i : Nat) :
    (valentine i).message ∈ LOVE_QUOTES ∧
      (valentine i).«from» = "Your Valentine" :=
  ⟨pick_mem i, rfl⟩

/-- C2: the health handler is deterministic and total: it is the constant
record with `status` = "ok" and `service` = "valentine-backend". -/
theorem health_constant :
    health = { status := "ok", service := "valentine-backend" } := rfl

/-- C3: with the random source modelled as an injected uniform index
`i < N`, the selection returns `LOVE_QUOTES[i]`, and distinct in-range
indices select distinct results, so each of the N elements is selected by
exactly one index value. -/
theorem pick_uniform_indexed :
    (∀ i (h : i < LOVE_QUOTES.length), pick i = LOVE_QUOTES.get ⟨i, h⟩) ∧
      (∀ i j, i < LOVE_QUOTES.length → j < LOVE_QUOTES.length →
        pick i = pick j → i = j) := by
  constructor
  · intro i h
    rw [pick_eq_get i]
    simp [Nat.mod_eq_of_lt h]
  · intro i j hi hj h
    have := pick_mod_inj i j h
    rwa [Nat.mod_eq_of_lt hi, Nat.mod_eq_of_lt hj] at this

/-- Witness for C3 at index 3. -/
theorem pick_uniform_indexed_witness :
    pick 3 = LOVE_QUOTES.get ⟨3, by decide⟩ ∧ (3 : Nat) = 3 :=
  ⟨pick_uniform_indexed.1 3 (by decide),
   pick_uniform_indexed.2 3 3 (by decide) (by decide) rfl⟩

/-- C4: the quote bank is a fixed sequence of exactly 10 strings, none of
them empty (equivalently, the empty string is not a member), hence its
length is ≥ 1; in the embedding it is a constant, so nothing mutates it. -/
theorem quote_bank_fixed :
    LOVE_QUOTES.length = 10 ∧ 1 ≤ LOVE_QUOTES.length ∧
      "" ∉ LOVE_QUOTES := by decide

/-- C5: selection never errors: on the empty pool it returns exactly the
fallback string "I love you!", and on any non-empty pool it returns an
element of the pool. -/
theorem pick_total_with_fallback :
    (∀ i, pickFrom [] i = "I love you!") ∧
      (∀ (l : List String) i, l ≠ [] → pickFrom l i ∈ l) :=
  ⟨fun _ => rfl, fun l i hl => pickFrom_mem l hl i⟩

/-- Witness for C5: the fallback on the empty pool at index 5, and
membership on a concrete singleton pool at index 7. -/
theorem pick_total_with_fallback_witness :
    pickFrom [] 5 = "I love you!" ∧ pickFrom ["a"] 7 ∈ ["a"] :=
  ⟨pick_total_with_fallback.1 5,
   pick_total_with_fallback.2 ["a"] 7 (by decide)⟩

/-- C6: under the length ≥ 1 invariant the fallback branch is unreachable:
`choose` always succeeds on such a pool, and on the actual quote bank the
fallback string is never the returned message. -/
theorem fallback_unreachable :
    (∀ (l : List String), 1 ≤ l.length → ∀ i, (choose l i).isSome = true) ∧
      (∀ i, pick i ≠ "I love you!") := by
  constructor
  · intro l hl i
    have hne : l ≠ [] := by
      intro h
      rw [h] at hl
      exact absurd hl (by decide)
    unfold choose
    rw [List.get?_eq_get (Nat.mod_lt _ (List.length_pos.mpr hne))]
    rfl
  · intro i h
    exact fallback_not_mem (h ▸ pick_mem i)

/-- Witness for C6 on the actual quote bank at index 4. -/
theorem fallback_unreachable_witness :
    (choose LOVE_QUOTES 4).isSome = true ∧ pick 4 ≠ "I love you!" :=
  ⟨fallback_unreachable.1 LOVE_QUOTES (by decide) 4,
   fallback_unreachable.2 4⟩

/-- C7: every response the server produces, on any method/path pair
(matched routes and not-found responses alike), carries the allow-all
cross-origin headers. -/
theorem cors_on_every_response (method path : String) (i : Nat) :
    (respond method path i).corsAllowAll = true := by
  unfold respond
  split
  · rfl
  · split
    · rfl
    · rfl

/-- C8: any request that is neither GET /health nor GET /api/valentine gets
a 404 response with no structured body. -/
theorem unmatched_yields_404 (method path : String) (i : Nat)
    (h1 : ¬(method = "GET" ∧ path = "/health"))
    (h2 : ¬(method = "GET" ∧ path = "/api/valentine")) :
    (respond method path i).status = 404 ∧
      (respond method path i).body = none := by
  unfold respond
  rw [if_neg h1, if_neg h2]
  exact ⟨rfl, rfl⟩

/-- Witness for C8: GET /nope is a 404 with no body. -/
theorem unmatched_yields_404_witness :
    (respond "GET" "/nope" 0).status = 404 ∧
      (respond "GET" "/nope" 0).body = none :=
  unmatched_yields_404 "GET" "/nope" 0 (by decide) (by decide)

/-- C9: when the CORS policy fails to construct, the launch sequence yields
the fatal error and produces no server, so the listener is never bound. -/
theorem cors_failure_fail_fast :
    rocket none = Except.error "CORS configuration failed" ∧
      (rocket none).toOption = none :=
  ⟨rfl, rfl⟩

/-- C10: the ten quotes are pairwise distinct and the fallback string is
not among them, so equal picked messages come from the same effective
index. -/
theorem quotes_distinct_fallback_absent :
    LOVE_QUOTES.Nodup ∧ "I love you!" ∉ LOVE_QUOTES ∧
      (∀ i j, pick i = pick j →
        i % LOVE_QUOTES.length = j % LOVE_QUOTES.length) :=
  ⟨love_quotes_nodup, fallback_not_mem, pick_mod_inj⟩

/-- Witness for C10: the index-identification implication discharged at the
concrete indices 2 and 12, which pick the same quote. -/
theorem quotes_distinct_fallback_absent_witness :
    (2 : Nat) % LOVE_QUOTES.length = 12 % LOVE_QUOTES.length :=
  quotes_distinct_fallback_absent.2.2 2 12 (by decide)
